import Mathlib

/-!
Verification development for the Djerba interpreter (src/djerba.py): a shallow
embedding of its lexer, recursive-descent parser and tree-walking evaluator,
followed by theorems settling the claims about its specification.

Modelling conventions, stated once:
* Python floats are modelled exactly by rationals.  Every IEEE-754 double is a
  rational, and all arithmetic exercised by the claims (integer-valued sums,
  products, comparisons) is exact, so the rational model agrees with the host.
  Host behaviours that are not exactly representable over the rationals
  (transcendental math builtins, power with a non-integral exponent, the
  shortest-round-trip repr of a non-terminating decimal) are mapped to the
  explicit marker `Exc.unmodeled`; no claim exercises those paths.
* Python regex character classes are modelled over ASCII, matching the ASCII
  sources the language uses.
* Mutation (environment frames, shared lists, output) is explicit state
  threading; Python exceptions carry the mutated state with them, so every
  evaluation function returns the state alongside the `Except` result.
* Nontermination (while loops, recursive calls) is bounded by explicit fuel;
  running out of fuel yields the marker `Exc.fuelOut`, never a Python error.
-/

-- The Batteries library seals the core rational operations; restoring the
-- default reducibility lets concrete interpreter runs evaluate inside proofs.
attribute [local semireducible] Rat.add Rat.sub Rat.mul Rat.inv Rat.ofScientific

/-! ## Lexer (djerba.py lines 13-67) -/

/-- Token kinds, exactly the names of TOKEN_SPEC plus the EOF sentinel. -/
inductive TokType where
  | NUMBER | STRING | ARROW | PRINT | FORLOOP | IF | WHILE | FUNC | RETURN
  | TRUE | FALSE | AND | OR | NOT | IN | BREAK | CONTINUE | ELSE
  | IDENT | DOLLAR | OP | CMP
  | LPAREN | RPAREN | LBRACE | RBRACE | LBRACKET | RBRACKET | COMMA
  | NEWLINE | SKIP | COMMENT | EOF
deriving DecidableEq, Repr

/-- Token dataclass: kind, lexeme, byte offset. -/
structure Token where
  type : TokType
  value : String
  pos : Nat
deriving DecidableEq, Repr

/-- ASCII model of the regex class \w = [A-Za-z0-9_]. -/
def isWordChar (c : Char) : Bool :=
  (('A' ≤ c && c ≤ 'Z') || ('a' ≤ c && c ≤ 'z') || ('0' ≤ c && c ≤ '9') || c = '_')

/-- ASCII model of the regex class \d. -/
def isDigitChar (c : Char) : Bool :=
  '0' ≤ c && c ≤ '9'

/-- Greedy run of digits, returning the run and the rest. -/
def takeDigits : List Char → (List Char × List Char)
  | [] => ([], [])
  | c :: cs =>
    if isDigitChar c then
      let (d, r) := takeDigits cs
      (c :: d, r)
    else ([], c :: cs)

/-- NUMBER pattern \d+(\.\d+)? : digits, optionally a dot followed by digits. -/
def matchNumber (cs : List Char) : Option (List Char) :=
  let (d, r) := takeDigits cs
  if d.isEmpty then none
  else
    match r with
    | '.' :: r2 =>
      let (d2, _) := takeDigits r2
      if d2.isEmpty then some d else some (d ++ '.' :: d2)
    | _ => some d

/-- Body scan of the STRING pattern "([^"\\]|\\.)*" after the opening quote:
returns the consumed characters including the closing quote, or none if the
input ends before an unescaped closing quote. -/
def matchStringBody : List Char → Option (List Char)
  | [] => none
  | '"' :: _ => some ['"']
  | '\\' :: c :: cs =>
    match matchStringBody cs with
    | some r => some ('\\' :: c :: r)
    | none => none
  | '\\' :: [] => none
  | c :: cs =>
    match matchStringBody cs with
    | some r => some (c :: r)
    | none => none

/-- STRING pattern including both quotes. -/
def matchString (cs : List Char) : Option (List Char) :=
  match cs with
  | '"' :: rest =>
    match matchStringBody rest with
    | some r => some ('"' :: r)
    | none => none
  | _ => none

/-- Keyword pattern \bKW\b : the literal word, with a word boundary on both
sides.  The left boundary holds when the previous character is not a word
character (prevWord = false); the right when the next character is absent or
not a word character. -/
def matchKeyword (kw : List Char) (prevWord : Bool) (cs : List Char) : Bool :=
  if prevWord then false
  else if cs.take kw.length = kw then
    match cs.drop kw.length with
    | [] => true
    | c :: _ => !isWordChar c
  else false

/-- IDENT pattern [A-Za-z_][A-Za-z0-9_]* . -/
def matchIdent (cs : List Char) : Option (List Char) :=
  match cs with
  | c :: rest =>
    if (('A' ≤ c && c ≤ 'Z') || ('a' ≤ c && c ≤ 'z') || c = '_') then
      let (w, _) := rest.span (fun d => isWordChar d)
      some (c :: w)
    else none
  | [] => none

/-- SKIP pattern [ \t\r]+ . -/
def matchSkip (cs : List Char) : Option (List Char) :=
  let (w, _) := cs.span (fun c => c = ' ' || c = '\t' || c = '\r')
  if w.isEmpty then none else some w

/-- COMMENT pattern ;;[^\n]* . -/
def matchComment (cs : List Char) : Option (List Char) :=
  match cs with
  | ';' :: ';' :: rest =>
    let (w, _) := rest.span (fun c => c ≠ '\n')
    some (';' :: ';' :: w)
  | _ => none

/-- CMP pattern (==|!=|<=|>=|<|>), alternatives tried left to right. -/
def matchCmp (cs : List Char) : Option (List Char) :=
  match cs with
  | '=' :: '=' :: _ => some ['=', '=']
  | '!' :: '=' :: _ => some ['!', '=']
  | '<' :: '=' :: _ => some ['<', '=']
  | '>' :: '=' :: _ => some ['>', '=']
  | '<' :: _ => some ['<']
  | '>' :: _ => some ['>']
  | _ => none

/-- One attempt of the master regex at the current position: the patterns of
TOKEN_SPEC are tried in table order (the semantics of a regex alternation) and
the first that matches wins.  Returns the kind and the matched characters. -/
def matchToken (prevWord : Bool) (cs : List Char) : Option (TokType × List Char) :=
  match matchNumber cs with
  | some w => some (.NUMBER, w)
  | none =>
  match matchString cs with
  | some w => some (.STRING, w)
  | none =>
  match cs with
  | '<' :: '-' :: _ => some (.ARROW, ['<', '-'])
  | _ =>
  match cs with
  | ':' :: '>' :: _ => some (.PRINT, [':', '>'])
  | _ =>
  match cs with
  | '@' :: '>' :: _ => some (.FORLOOP, ['@', '>'])
  | _ =>
  match cs with
  | '?' :: _ => some (.IF, ['?'])
  | '~' :: _ => some (.WHILE, ['~'])
  | '@' :: _ => some (.FUNC, ['@'])
  | _ =>
  match cs with
  | '!' :: '>' :: _ => some (.RETURN, ['!', '>'])
  | _ =>
  if matchKeyword ['t','r','u','e'] prevWord cs then some (.TRUE, ['t','r','u','e'])
  else if matchKeyword ['f','a','l','s','e'] prevWord cs then some (.FALSE, ['f','a','l','s','e'])
  else if matchKeyword ['a','n','d'] prevWord cs then some (.AND, ['a','n','d'])
  else if matchKeyword ['o','r'] prevWord cs then some (.OR, ['o','r'])
  else if matchKeyword ['n','o','t'] prevWord cs then some (.NOT, ['n','o','t'])
  else if matchKeyword ['i','n'] prevWord cs then some (.IN, ['i','n'])
  else if matchKeyword ['b','r','e','a','k'] prevWord cs then some (.BREAK, ['b','r','e','a','k'])
  else if matchKeyword ['c','o','n','t','i','n','u','e'] prevWord cs then
    some (.CONTINUE, ['c','o','n','t','i','n','u','e'])
  else if matchKeyword ['e','l','s','e'] prevWord cs then some (.ELSE, ['e','l','s','e'])
  else
  match matchIdent cs with
  | some w => some (.IDENT, w)
  | none =>
  match cs with
  | '$' :: _ => some (.DOLLAR, ['$'])
  | _ =>
  match cs with
  | c :: _ =>
    if (c = '+' || c = '-' || c = '*' || c = '/' || c = '^' || c = '%') then
      some (.OP, [c])
    else
    match matchCmp cs with
    | some w => some (.CMP, w)
    | none =>
      if c = '(' then some (.LPAREN, [c])
      else if c = ')' then some (.RPAREN, [c])
      else if c = '{' then some (.LBRACE, [c])
      else if c = '}' then some (.RBRACE, [c])
      else if c = '[' then some (.LBRACKET, [c])
      else if c = ']' then some (.RBRACKET, [c])
      else if c = ',' then some (.COMMA, [c])
      else if c = '\n' then some (.NEWLINE, [c])
      else
      match matchSkip cs with
      | some w => some (.SKIP, w)
      | none =>
      match matchComment cs with
      | some w => some (.COMMENT, w)
      | none => none
  | [] => none

/-- The scan loop of re.finditer over the master regex: at each position try
the pattern table; on a match emit the token (unless SKIP or COMMENT, which
the for-body drops) and advance past it; on no match silently skip one
character and continue, exactly as finditer resumes the search at the next
position.  prevWord tracks whether the character just before the current
position is a word character (the state the \b anchors of the keyword
patterns consult). -/
def lexAux (fuel : Nat) (cs : List Char) (prevWord : Bool) (pos : Nat) : List Token :=
  match fuel with
  | 0 => []
  | fuel + 1 =>
    match cs with
    | [] => [⟨.EOF, "", pos⟩]
    | c :: rest =>
      match matchToken prevWord (c :: rest) with
      | none => lexAux fuel rest (isWordChar c) (pos + 1)
      | some (k, w) =>
        let n := w.length
        let rest2 := (c :: rest).drop n
        let pw := isWordChar (w.getLastD c)
        if k = .SKIP || k = .COMMENT then
          lexAux fuel rest2 pw (pos + n)
        else
          ⟨k, String.mk w, pos⟩ :: lexAux fuel rest2 pw (pos + n)

/-- lex(source): tokens of the whole source followed by the EOF sentinel at
offset len(source).  The fuel is sufficient because every step consumes at
least one character. -/
def lex (source : String) : List Token :=
  lexAux (source.length + 1) source.data false 0

/-! ## AST (djerba.py lines 75-118) -/

/-- AST nodes: one variant per dataclass.  As in the source, statements and
expressions share a single node type (an expression may stand as a
statement). -/
inductive Node where
  | program (body : List Node)
  | print (args : List Node)
  | assign (name : String) (expr : Node)
  | ifS (cond : Node) (then_ : List Node) (els : Option (List Node))
  | whileS (cond : Node) (body : List Node)
  | forLoop (var : String) (iterable : Node) (body : List Node)
  | funcDef (name : String) (params : List String) (body : List Node)
  | ret (expr : Node)
  | brk
  | cont
  | var (name : String)
  | num (value : ℚ)
  | str (value : String)
  | bool (value : Bool)
  | listLit (elements : List Node)
  | index (obj : Node) (idx : Node)
  | call (name : String) (args : List Node)
  | binOp (op : String) (left : Node) (right : Node)
  | compare (op : String) (left : Node) (right : Node)
  | logicalOp (op : String) (left : Node) (right : Option Node)
deriving Repr

/-! ## Number and string literal conversion (Parser.primary) -/

/-- Digits of a decimal string as a natural number (the lexer only produces
digit runs, so plain accumulation is enough). -/
def digitsToNat (cs : List Char) : Nat :=
  cs.foldl (fun acc c => acc * 10 + (c.toNat - '0'.toNat)) 0

/-- float(raw) on a NUMBER lexeme \d+(\.\d+)? , modelled as the exact decimal
rational (the host rounds this to the nearest double; the claims only use
values on which the two agree, see the file header). -/
def lexFloat (s : String) : ℚ :=
  let (ip, rest) := s.data.span (fun c => c ≠ '.')
  let fp := rest.drop 1
  (digitsToNat ip : ℚ) + (digitsToNat fp : ℚ) / (10 ^ fp.length : ℚ)

/-- Value of a hex digit. -/
def hexVal (c : Char) : Nat :=
  if '0' ≤ c && c ≤ '9' then c.toNat - '0'.toNat
  else if 'a' ≤ c && c ≤ 'f' then c.toNat - 'a'.toNat + 10
  else if 'A' ≤ c && c ≤ 'F' then c.toNat - 'A'.toNat + 10
  else 0

def isHexDigit (c : Char) : Bool :=
  ('0' ≤ c && c ≤ '9') || ('a' ≤ c && c ≤ 'f') || ('A' ≤ c && c ≤ 'F')

def isOctDigit (c : Char) : Bool :=
  '0' ≤ c && c ≤ '7'

/-- The unicode_escape decoding applied to the quoted lexeme in
Parser.primary: expand \n \r \t \\ \" \0 octal \NNN, \xHH and \uHHHH; an
unrecognized escape is kept verbatim (backslash and all), as the codec does.
Returns none where the codec would fail (truncated \x or \u). -/
def unescapeChars : List Char → Option (List Char)
  | [] => some []
  | '\\' :: 'n' :: cs => (unescapeChars cs).map (fun r => '\n' :: r)
  | '\\' :: 'r' :: cs => (unescapeChars cs).map (fun r => '\r' :: r)
  | '\\' :: 't' :: cs => (unescapeChars cs).map (fun r => '\t' :: r)
  | '\\' :: '\\' :: cs => (unescapeChars cs).map (fun r => '\\' :: r)
  | '\\' :: '\'' :: cs => (unescapeChars cs).map (fun r => '\'' :: r)
  | '\\' :: '"' :: cs => (unescapeChars cs).map (fun r => '"' :: r)
  | '\\' :: 'x' :: a :: b :: cs =>
    if isHexDigit a && isHexDigit b then
      (unescapeChars cs).map (fun r => Char.ofNat (hexVal a * 16 + hexVal b) :: r)
    else none
  | '\\' :: 'x' :: _ => none
  | '\\' :: 'u' :: a :: b :: c :: d :: cs =>
    if isHexDigit a && isHexDigit b && isHexDigit c && isHexDigit d then
      (unescapeChars cs).map
        (fun r => Char.ofNat (((hexVal a * 16 + hexVal b) * 16 + hexVal c) * 16 + hexVal d) :: r)
    else none
  | '\\' :: 'u' :: _ => none
  | '\\' :: a :: cs =>
    if isOctDigit a then
      match cs with
      | b :: c :: cs2 =>
        if isOctDigit b && isOctDigit c then
          (unescapeChars cs2).map
            (fun r => Char.ofNat ((hexVal a * 8 + hexVal b) * 8 + hexVal c) :: r)
        else if isOctDigit b then
          (unescapeChars (c :: cs2)).map (fun r => Char.ofNat (hexVal a * 8 + hexVal b) :: r)
        else (unescapeChars (b :: c :: cs2)).map (fun r => Char.ofNat (hexVal a) :: r)
      | [b] =>
        if isOctDigit b then (unescapeChars []).map (fun _ => [Char.ofNat (hexVal a * 8 + hexVal b)])
        else (unescapeChars [b]).map (fun r => Char.ofNat (hexVal a) :: r)
      | [] => some [Char.ofNat (hexVal a)]
    else (unescapeChars cs).map (fun r => '\\' :: a :: r)
  | '\\' :: [] => some ['\\']
  | c :: cs => (unescapeChars cs).map (fun r => c :: r)

/-- Strip the surrounding quotes of a STRING lexeme and decode escapes, as
bytes(raw[1:-1]).decode(unicode_escape) does.  none marks a codec failure. -/
def unescapeString (raw : String) : Option String :=
  (unescapeChars ((raw.data.drop 1).dropLast)).map String.mk

/-! ## Parser (djerba.py lines 120-339) -/

/-- ParseError payload: Expected e, got g at pos, or Unexpected token at
pos.  A separate marker records exhaustion of the model fuel, and hostIndex
models a host IndexError on token access past the sentinel (unreachable: the
parser never consumes EOF). -/
inductive PErr where
  | expected (e : TokType) (got : TokType) (pos : Nat)
  | unexpected (got : TokType) (pos : Nat)
  | badEscape (pos : Nat)
  | hostIndex
  | fuelOut
deriving DecidableEq, Repr

/-- Parse results: a value plus the index of the next unconsumed token. -/
abbrev PRes (α : Type) := Except PErr (α × Nat)

/-- self.ts[self.i] . -/
def getTok (ts : List Token) (i : Nat) : Option Token := ts.get? i

/-- self.peek(*types) . -/
def peekT (ts : List Token) (i : Nat) (tys : List TokType) : Bool :=
  match getTok ts i with
  | some t => tys.contains t.type
  | none => false

/-- self.expect(ttype) . -/
def expectT (ts : List Token) (i : Nat) (ty : TokType) : PRes Token :=
  match getTok ts i with
  | none => .error .hostIndex
  | some t => if t.type = ty then .ok (t, i + 1) else .error (.expected ty t.type t.pos)

/-- self.match(ttype): consume and return the token if it is next. -/
def matchT (ts : List Token) (i : Nat) (ty : TokType) : Option Token × Nat :=
  if peekT ts i [ty] then
    match getTok ts i with
    | some t => (some t, i + 1)
    | none => (none, i)
  else (none, i)

/-- Value of the token at i, empty when out of range (only consulted after a
successful peek, so the default is never observed). -/
def tokValue (ts : List Token) (i : Nat) : String :=
  match getTok ts i with
  | some t => t.value
  | none => ""

mutual

/-- Parser.parse: statements separated by optional NEWLINEs until EOF. -/
def pParseLoop (fuel : Nat) (ts : List Token) (i : Nat) : PRes (List Node) :=
  match fuel with
  | 0 => .error .fuelOut
  | f + 1 =>
    if peekT ts i [.EOF] then .ok ([], i)
    else if peekT ts i [.NEWLINE] then
      match expectT ts i .NEWLINE with
      | .error e => .error e
      | .ok (_, i2) => pParseLoop f ts i2
    else
      match pStatement f ts i with
      | .error e => .error e
      | .ok (s, i2) =>
        let (_, i3) := matchT ts i2 .NEWLINE
        match pParseLoop f ts i3 with
        | .error e => .error e
        | .ok (ss, i4) => .ok (s :: ss, i4)
termination_by structural fuel

/-- Parser.block: brace-delimited statement list. -/
def pBlockLoop (fuel : Nat) (ts : List Token) (i : Nat) : PRes (List Node) :=
  match fuel with
  | 0 => .error .fuelOut
  | f + 1 =>
    if peekT ts i [.RBRACE] then .ok ([], i)
    else if peekT ts i [.NEWLINE] then
      match expectT ts i .NEWLINE with
      | .error e => .error e
      | .ok (_, i2) => pBlockLoop f ts i2
    else
      match pStatement f ts i with
      | .error e => .error e
      | .ok (s, i2) =>
        let (_, i3) := matchT ts i2 .NEWLINE
        match pBlockLoop f ts i3 with
        | .error e => .error e
        | .ok (ss, i4) => .ok (s :: ss, i4)
termination_by structural fuel

def pBlock (fuel : Nat) (ts : List Token) (i : Nat) : PRes (List Node) :=
  match fuel with
  | 0 => .error .fuelOut
  | f + 1 =>
    match expectT ts i .LBRACE with
    | .error e => .error e
    | .ok (_, i2) =>
      match pBlockLoop f ts i2 with
      | .error e => .error e
      | .ok (body, i3) =>
        match expectT ts i3 .RBRACE with
        | .error e => .error e
        | .ok (_, i4) => .ok (body, i4)
termination_by structural fuel

/-- (COMMA expr)* continuation of a comma-separated expression list. -/
def pExprMore (fuel : Nat) (ts : List Token) (i : Nat) : PRes (List Node) :=
  match fuel with
  | 0 => .error .fuelOut
  | f + 1 =>
    match matchT ts i .COMMA with
    | (none, _) => .ok ([], i)
    | (some _, i2) =>
      match pExpr f ts i2 with
      | .error e => .error e
      | .ok (x, i3) =>
        match pExprMore f ts i3 with
        | .error e => .error e
        | .ok (xs, i4) => .ok (x :: xs, i4)
termination_by structural fuel

/-- (COMMA IDENT)* continuation of a parameter list. -/
def pParamMore (fuel : Nat) (ts : List Token) (i : Nat) : PRes (List String) :=
  match fuel with
  | 0 => .error .fuelOut
  | f + 1 =>
    match matchT ts i .COMMA with
    | (none, _) => .ok ([], i)
    | (some _, i2) =>
      match expectT ts i2 .IDENT with
      | .error e => .error e
      | .ok (t, i3) =>
        match pParamMore f ts i3 with
        | .error e => .error e
        | .ok (xs, i4) => .ok (t.value :: xs, i4)
termination_by structural fuel

/-- Parser.statement: dispatch on the leading token, in source order. -/
def pStatement (fuel : Nat) (ts : List Token) (i : Nat) : PRes Node :=
  match fuel with
  | 0 => .error .fuelOut
  | f + 1 =>
    if peekT ts i [.PRINT] then
      match expectT ts i .PRINT with
      | .error e => .error e
      | .ok (_, i2) =>
        match pExpr f ts i2 with
        | .error e => .error e
        | .ok (a, i3) =>
          match pExprMore f ts i3 with
          | .error e => .error e
          | .ok (more, i4) => .ok (.print (a :: more), i4)
    else if peekT ts i [.DOLLAR] then
      match expectT ts i .DOLLAR with
      | .error e => .error e
      | .ok (_, i2) =>
        match expectT ts i2 .IDENT with
        | .error e => .error e
        | .ok (t, i3) =>
          match expectT ts i3 .ARROW with
          | .error e => .error e
          | .ok (_, i4) =>
            match pExpr f ts i4 with
            | .error e => .error e
            | .ok (x, i5) => .ok (.assign t.value x, i5)
    else if peekT ts i [.IF] then
      match expectT ts i .IF with
      | .error e => .error e
      | .ok (_, i2) =>
        match pExpr f ts i2 with
        | .error e => .error e
        | .ok (cond, i3) =>
          match pBlock f ts i3 with
          | .error e => .error e
          | .ok (then_, i4) =>
            match matchT ts i4 .ELSE with
            | (none, _) => .ok (.ifS cond then_ none, i4)
            | (some _, i5) =>
              match pBlock f ts i5 with
              | .error e => .error e
              | .ok (els, i6) => .ok (.ifS cond then_ (some els), i6)
    else if peekT ts i [.WHILE] then
      match expectT ts i .WHILE with
      | .error e => .error e
      | .ok (_, i2) =>
        match pExpr f ts i2 with
        | .error e => .error e
        | .ok (cond, i3) =>
          match pBlock f ts i3 with
          | .error e => .error e
          | .ok (body, i4) => .ok (.whileS cond body, i4)
    else if peekT ts i [.FORLOOP] then
      match expectT ts i .FORLOOP with
      | .error e => .error e
      | .ok (_, i2) =>
        match expectT ts i2 .DOLLAR with
        | .error e => .error e
        | .ok (_, i3) =>
          match expectT ts i3 .IDENT with
          | .error e => .error e
          | .ok (t, i4) =>
            match expectT ts i4 .IN with
            | .error e => .error e
            | .ok (_, i5) =>
              match pExpr f ts i5 with
              | .error e => .error e
              | .ok (iter, i6) =>
                match pBlock f ts i6 with
                | .error e => .error e
                | .ok (body, i7) => .ok (.forLoop t.value iter body, i7)
    else if peekT ts i [.FUNC] then
      match expectT ts i .FUNC with
      | .error e => .error e
      | .ok (_, i2) =>
        match expectT ts i2 .IDENT with
        | .error e => .error e
        | .ok (t, i3) =>
          match expectT ts i3 .LPAREN with
          | .error e => .error e
          | .ok (_, i4) =>
            match
              (if peekT ts i4 [.RPAREN] then (.ok ([], i4) : PRes (List String))
               else
                 match expectT ts i4 .IDENT with
                 | .error e => .error e
                 | .ok (p, i5) =>
                   match pParamMore f ts i5 with
                   | .error e => .error e
                   | .ok (ps, i6) => .ok (p.value :: ps, i6)) with
            | .error e => .error e
            | .ok (params, i7) =>
              match expectT ts i7 .RPAREN with
              | .error e => .error e
              | .ok (_, i8) =>
                match pBlock f ts i8 with
                | .error e => .error e
                | .ok (body, i9) => .ok (.funcDef t.value params body, i9)
    else if peekT ts i [.RETURN] then
      match expectT ts i .RETURN with
      | .error e => .error e
      | .ok (_, i2) =>
        match pExpr f ts i2 with
        | .error e => .error e
        | .ok (x, i3) => .ok (.ret x, i3)
    else if peekT ts i [.BREAK] then
      match expectT ts i .BREAK with
      | .error e => .error e
      | .ok (_, i2) => .ok (.brk, i2)
    else if peekT ts i [.CONTINUE] then
      match expectT ts i .CONTINUE with
      | .error e => .error e
      | .ok (_, i2) => .ok (.cont, i2)
    else
      pExpr f ts i
termination_by structural fuel

/-- Parser.expr . -/
def pExpr (fuel : Nat) (ts : List Token) (i : Nat) : PRes Node :=
  match fuel with
  | 0 => .error .fuelOut
  | f + 1 => pLogicalOr f ts i
termination_by structural fuel

def pLogicalOr (fuel : Nat) (ts : List Token) (i : Nat) : PRes Node :=
  match fuel with
  | 0 => .error .fuelOut
  | f + 1 =>
    match pLogicalAnd f ts i with
    | .error e => .error e
    | .ok (n, i2) => pOrLoop f n ts i2
termination_by structural fuel

def pOrLoop (fuel : Nat) (acc : Node) (ts : List Token) (i : Nat) : PRes Node :=
  match fuel with
  | 0 => .error .fuelOut
  | f + 1 =>
    if peekT ts i [.OR] then
      match expectT ts i .OR with
      | .error e => .error e
      | .ok (_, i2) =>
        match pLogicalAnd f ts i2 with
        | .error e => .error e
        | .ok (r, i3) => pOrLoop f (.logicalOp "or" acc (some r)) ts i3
    else .ok (acc, i)
termination_by structural fuel

def pLogicalAnd (fuel : Nat) (ts : List Token) (i : Nat) : PRes Node :=
  match fuel with
  | 0 => .error .fuelOut
  | f + 1 =>
    match pLogicalNot f ts i with
    | .error e => .error e
    | .ok (n, i2) => pAndLoop f n ts i2
termination_by structural fuel

def pAndLoop (fuel : Nat) (acc : Node) (ts : List Token) (i : Nat) : PRes Node :=
  match fuel with
  | 0 => .error .fuelOut
  | f + 1 =>
    if peekT ts i [.AND] then
      match expectT ts i .AND with
      | .error e => .error e
      | .ok (_, i2) =>
        match pLogicalNot f ts i2 with
        | .error e => .error e
        | .ok (r, i3) => pAndLoop f (.logicalOp "and" acc (some r)) ts i3
    else .ok (acc, i)
termination_by structural fuel

def pLogicalNot (fuel : Nat) (ts : List Token) (i : Nat) : PRes Node :=
  match fuel with
  | 0 => .error .fuelOut
  | f + 1 =>
    if peekT ts i [.NOT] then
      match expectT ts i .NOT with
      | .error e => .error e
      | .ok (_, i2) =>
        match pLogicalNot f ts i2 with
        | .error e => .error e
        | .ok (n, i3) => .ok (.logicalOp "not" n none, i3)
    else pCompare f ts i
termination_by structural fuel

def pCompare (fuel : Nat) (ts : List Token) (i : Nat) : PRes Node :=
  match fuel with
  | 0 => .error .fuelOut
  | f + 1 =>
    match pTerm f ts i with
    | .error e => .error e
    | .ok (n, i2) => pCmpLoop f n ts i2
termination_by structural fuel

def pCmpLoop (fuel : Nat) (acc : Node) (ts : List Token) (i : Nat) : PRes Node :=
  match fuel with
  | 0 => .error .fuelOut
  | f + 1 =>
    if peekT ts i [.CMP] then
      match expectT ts i .CMP with
      | .error e => .error e
      | .ok (t, i2) =>
        match pTerm f ts i2 with
        | .error e => .error e
        | .ok (r, i3) => pCmpLoop f (.compare t.value acc r) ts i3
    else .ok (acc, i)
termination_by structural fuel

def pTerm (fuel : Nat) (ts : List Token) (i : Nat) : PRes Node :=
  match fuel with
  | 0 => .error .fuelOut
  | f + 1 =>
    match pFactor f ts i with
    | .error e => .error e
    | .ok (n, i2) => pTermLoop f n ts i2
termination_by structural fuel

def pTermLoop (fuel : Nat) (acc : Node) (ts : List Token) (i : Nat) : PRes Node :=
  match fuel with
  | 0 => .error .fuelOut
  | f + 1 =>
    if peekT ts i [.OP] && (tokValue ts i = "+" || tokValue ts i = "-") then
      match expectT ts i .OP with
      | .error e => .error e
      | .ok (t, i2) =>
        match pFactor f ts i2 with
        | .error e => .error e
        | .ok (r, i3) => pTermLoop f (.binOp t.value acc r) ts i3
    else .ok (acc, i)
termination_by structural fuel

def pFactor (fuel : Nat) (ts : List Token) (i : Nat) : PRes Node :=
  match fuel with
  | 0 => .error .fuelOut
  | f + 1 =>
    match pPower f ts i with
    | .error e => .error e
    | .ok (n, i2) => pFactorLoop f n ts i2
termination_by structural fuel

def pFactorLoop (fuel : Nat) (acc : Node) (ts : List Token) (i : Nat) : PRes Node :=
  match fuel with
  | 0 => .error .fuelOut
  | f + 1 =>
    if peekT ts i [.OP] &&
        (tokValue ts i = "*" || tokValue ts i = "/" || tokValue ts i = "%") then
      match expectT ts i .OP with
      | .error e => .error e
      | .ok (t, i2) =>
        match pPower f ts i2 with
        | .error e => .error e
        | .ok (r, i3) => pFactorLoop f (.binOp t.value acc r) ts i3
    else .ok (acc, i)
termination_by structural fuel

def pPower (fuel : Nat) (ts : List Token) (i : Nat) : PRes Node :=
  match fuel with
  | 0 => .error .fuelOut
  | f + 1 =>
    match pUnary f ts i with
    | .error e => .error e
    | .ok (n, i2) => pPowerLoop f n ts i2
termination_by structural fuel

def pPowerLoop (fuel : Nat) (acc : Node) (ts : List Token) (i : Nat) : PRes Node :=
  match fuel with
  | 0 => .error .fuelOut
  | f + 1 =>
    if peekT ts i [.OP] && tokValue ts i = "^" then
      match expectT ts i .OP with
      | .error e => .error e
      | .ok (_, i2) =>
        match pUnary f ts i2 with
        | .error e => .error e
        | .ok (r, i3) => pPowerLoop f (.binOp "^" acc r) ts i3
    else .ok (acc, i)
termination_by structural fuel

/-- Parser.unary: unary minus desugars to (-1) * x. -/
def pUnary (fuel : Nat) (ts : List Token) (i : Nat) : PRes Node :=
  match fuel with
  | 0 => .error .fuelOut
  | f + 1 =>
    if peekT ts i [.OP] && tokValue ts i = "-" then
      match expectT ts i .OP with
      | .error e => .error e
      | .ok (_, i2) =>
        match pUnary f ts i2 with
        | .error e => .error e
        | .ok (n, i3) => .ok (.binOp "*" (.num (-1)) n, i3)
    else pPrimary f ts i
termination_by structural fuel

/-- Index chains after a $IDENT primary. -/
def pIndexLoop (fuel : Nat) (acc : Node) (ts : List Token) (i : Nat) : PRes Node :=
  match fuel with
  | 0 => .error .fuelOut
  | f + 1 =>
    if peekT ts i [.LBRACKET] then
      match expectT ts i .LBRACKET with
      | .error e => .error e
      | .ok (_, i2) =>
        match pExpr f ts i2 with
        | .error e => .error e
        | .ok (idx, i3) =>
          match expectT ts i3 .RBRACKET with
          | .error e => .error e
          | .ok (_, i4) => pIndexLoop f (.index acc idx) ts i4
    else .ok (acc, i)
termination_by structural fuel

/-- Parser.primary . -/
def pPrimary (fuel : Nat) (ts : List Token) (i : Nat) : PRes Node :=
  match fuel with
  | 0 => .error .fuelOut
  | f + 1 =>
    if peekT ts i [.NUMBER] then
      match expectT ts i .NUMBER with
      | .error e => .error e
      | .ok (t, i2) => .ok (.num (lexFloat t.value), i2)
    else if peekT ts i [.STRING] then
      match expectT ts i .STRING with
      | .error e => .error e
      | .ok (t, i2) =>
        match unescapeString t.value with
        | some s => .ok (.str s, i2)
        | none => .error (.badEscape t.pos)
    else if peekT ts i [.TRUE] then
      match expectT ts i .TRUE with
      | .error e => .error e
      | .ok (_, i2) => .ok (.bool true, i2)
    else if peekT ts i [.FALSE] then
      match expectT ts i .FALSE with
      | .error e => .error e
      | .ok (_, i2) => .ok (.bool false, i2)
    else if peekT ts i [.LBRACKET] then
      match expectT ts i .LBRACKET with
      | .error e => .error e
      | .ok (_, i2) =>
        if peekT ts i2 [.RBRACKET] then
          match expectT ts i2 .RBRACKET with
          | .error e => .error e
          | .ok (_, i3) => .ok (.listLit [], i3)
        else
          match pExpr f ts i2 with
          | .error e => .error e
          | .ok (x, i3) =>
            match pExprMore f ts i3 with
            | .error e => .error e
            | .ok (more, i4) =>
              match expectT ts i4 .RBRACKET with
              | .error e => .error e
              | .ok (_, i5) => .ok (.listLit (x :: more), i5)
    else if peekT ts i [.DOLLAR] then
      match expectT ts i .DOLLAR with
      | .error e => .error e
      | .ok (_, i2) =>
        match expectT ts i2 .IDENT with
        | .error e => .error e
        | .ok (t, i3) => pIndexLoop f (.var t.value) ts i3
    else if peekT ts i [.IDENT] then
      match expectT ts i .IDENT with
      | .error e => .error e
      | .ok (t, i2) =>
        match matchT ts i2 .LPAREN with
        | (none, _) => .ok (.var t.value, i2)
        | (some _, i3) =>
          if peekT ts i3 [.RPAREN] then
            match expectT ts i3 .RPAREN with
            | .error e => .error e
            | .ok (_, i4) => .ok (.call t.value [], i4)
          else
            match pExpr f ts i3 with
            | .error e => .error e
            | .ok (x, i4) =>
              match pExprMore f ts i4 with
              | .error e => .error e
              | .ok (more, i5) =>
                match expectT ts i5 .RPAREN with
                | .error e => .error e
                | .ok (_, i6) => .ok (.call t.value (x :: more), i6)
    else
      match matchT ts i .LPAREN with
      | (some _, i2) =>
        match pExpr f ts i2 with
        | .error e => .error e
        | .ok (x, i3) =>
          match expectT ts i3 .RPAREN with
          | .error e => .error e
          | .ok (_, i4) => .ok (x, i4)
      | (none, _) =>
        match getTok ts i with
        | some t => .error (.unexpected t.type t.pos)
        | none => .error .hostIndex
termination_by structural fuel

end

/-- Parser(tokens).parse(): the Program node. -/
def pParse (fuel : Nat) (ts : List Token) : Except PErr Node :=
  match pParseLoop fuel ts 0 with
  | .error e => .error e
  | .ok (ss, _) => .ok (.program ss)

/-! ## Runtime values and state (djerba.py lines 345-459) -/

/-- The built-in callables bound in the root frame, one tag per host lambda
of eval_program. -/
inductive Builtin where
  | sin | cos | tan | sqrt | abs | floor | ceil | round | min | max | pow
  | len | upper | lower | substr | push | pop | append
  | input | type | range | print
deriving DecidableEq, Repr

/-- Runtime values.  Python ints and floats are kept apart because the host
formats and promotes them differently; both are exact rationals here.  Lists
are references into the shared list store (reference identity, aliasing).
noneV is the host None; builtinV a host function object held in vars. -/
inductive Value where
  | intV (n : ℤ)
  | floatV (q : ℚ)
  | strV (s : String)
  | boolV (b : Bool)
  | listV (ref : Nat)
  | builtinV (b : Builtin)
  | noneV
deriving DecidableEq, Repr

/-- Exceptions: the three control-flow signals (ReturnSignal, BreakSignal,
ContinueSignal) and the host error kinds the interpreter can raise.  fuelOut
marks exhaustion of the model fuel and unmodeled a host behaviour outside
the exact rational/ASCII model (see the file header); neither corresponds to
a Python exception. -/
inductive Exc where
  | returnSig (v : Value)
  | breakSig
  | continueSig
  | nameError (m : String)
  | typeError (m : String)
  | indexError (m : String)
  | valueError (m : String)
  | zeroDivError (m : String)
  | attrError (m : String)
  | eofError
  | runtimeError (m : String)
  | fuelOut
  | unmodeled (m : String)
deriving DecidableEq, Repr

/-- A stored user function definition (the FuncDef node fields). -/
structure Func where
  name : String
  params : List String
  body : List Node
deriving Repr

/-- One Environment object: parent link plus the vars and funcs dicts
(association lists in insertion order, like Python dicts). -/
structure Frame where
  parent : Option Nat
  vars : List (String × Value)
  funcs : List (String × Func)
deriving Repr

/-- The mutable world: all Environment objects ever created (a frame is a
reference into this store, so parent-frame mutation stays visible), the list
store, the standard output accumulated so far, and the remaining stdin
lines. -/
structure Interp where
  frames : List Frame
  lists : List (List Value)
  output : String
  inputs : List String
deriving Repr

/-- dict lookup. -/
def aget (m : List (String × Value)) (k : String) : Option Value :=
  match m.find? (fun p => p.fst = k) with
  | some p => some p.snd
  | none => none

/-- dict store: update in place if present, else append (insertion order). -/
def aset (m : List (String × Value)) (k : String) (v : Value) : List (String × Value) :=
  match m with
  | [] => [(k, v)]
  | (k2, v2) :: rest => if k2 = k then (k, v) :: rest else (k2, v2) :: aset rest k v

def fget (m : List (String × Func)) (k : String) : Option Func :=
  match m.find? (fun p => p.fst = k) with
  | some p => some p.snd
  | none => none

def fset (m : List (String × Func)) (k : String) (v : Func) : List (String × Func) :=
  match m with
  | [] => [(k, v)]
  | (k2, v2) :: rest => if k2 = k then (k, v) :: rest else (k2, v2) :: fset rest k v

/-- Environment.get: walk the parent chain for a variable.  A dangling frame
index cannot be produced by the interpreter; it maps to runtimeError. -/
def envGet : Nat → Interp → Nat → String → Except Exc Value
  | 0, _, _, _ => .error .fuelOut
  | f + 1, st, idx, name =>
    match st.frames.get? idx with
    | none => .error (.runtimeError "missing frame")
    | some fr =>
      match aget fr.vars name with
      | some v => .ok v
      | none =>
        match fr.parent with
        | some p => envGet f st p name
        | none => .error (.nameError ("Undefined variable " ++ name))

/-- Environment.set: update in place if this frame defines the name; else, if
the immediate parent defines it, recurse into the parent (which then updates
in place); else create the binding in this frame.  Note the guard consults
only the parent one level up, exactly as the source does. -/
def envSet : Nat → Interp → Nat → String → Value → Except Exc Interp
  | 0, _, _, _, _ => .error .fuelOut
  | f + 1, st, idx, name, v =>
    match st.frames.get? idx with
    | none => .error (.runtimeError "missing frame")
    | some fr =>
      if (aget fr.vars name).isSome then
        .ok { st with frames := st.frames.set idx { fr with vars := aset fr.vars name v } }
      else
        match fr.parent with
        | some p =>
          match st.frames.get? p with
          | none => .error (.runtimeError "missing frame")
          | some pfr =>
            if (aget pfr.vars name).isSome then envSet f st p name v
            else .ok { st with frames := st.frames.set idx { fr with vars := aset fr.vars name v } }
        | none =>
          .ok { st with frames := st.frames.set idx { fr with vars := aset fr.vars name v } }

/-- Environment.get_func: walk the parent chain for a user function. -/
def envGetFunc : Nat → Interp → Nat → String → Except Exc Func
  | 0, _, _, _ => .error .fuelOut
  | f + 1, st, idx, name =>
    match st.frames.get? idx with
    | none => .error (.runtimeError "missing frame")
    | some fr =>
      match fget fr.funcs name with
      | some fn => .ok fn
      | none =>
        match fr.parent with
        | some p => envGetFunc f st p name
        | none => .error (.nameError ("Undefined function " ++ name ++ "()"))

/-- Environment.define_func on the frame idx. -/
def defineFunc (st : Interp) (idx : Nat) (fn : Func) : Interp :=
  match st.frames.get? idx with
  | none => st
  | some fr => { st with frames := st.frames.set idx { fr with funcs := fset fr.funcs fn.name fn } }

/-- Environment(env): allocate a child frame, returning its index. -/
def allocFrame (st : Interp) (parent : Option Nat) : Nat × Interp :=
  (st.frames.length, { st with frames := st.frames ++ [⟨parent, [], []⟩] })

/-- Allocate a fresh list object, returning its reference. -/
def allocList (st : Interp) (xs : List Value) : Nat × Interp :=
  (st.lists.length, { st with lists := st.lists ++ [xs] })

/-- Contents of a list reference (dangling references never arise). -/
def listsGet (st : Interp) (r : Nat) : List Value :=
  (st.lists.get? r).getD []

/-- Overwrite a list object in place. -/
def listsSet (st : Interp) (r : Nat) (xs : List Value) : Interp :=
  { st with lists := st.lists.set r xs }

/-- truthy(v) = bool(v): numbers by nonzero, strings and lists by nonempty,
None and False false, function objects true. -/
def truthy (st : Interp) (v : Value) : Bool :=
  match v with
  | .intV n => n ≠ 0
  | .floatV q => q ≠ 0
  | .strV s => s ≠ ""
  | .boolV b => b
  | .listV r => listsGet st r ≠ []
  | .builtinV _ => true
  | .noneV => false

/-! ## Host numeric and formatting helpers -/

/-- int(x) truncation of an exact float toward zero. -/
def truncRat (q : ℚ) : ℤ :=
  if 0 ≤ q then Rat.floor q else -Rat.floor (-q)

/-- round(x) with one argument: round half to even, returning an int. -/
def roundHalfEven (q : ℚ) : ℤ :=
  let n := Rat.floor (q + 1/2)
  if (q + 1/2 : ℚ) = (n : ℚ) && ¬(2 ∣ n) then n - 1 else n

/-- Numeric view of a value: Python bools take part in arithmetic as the
ints 0 and 1.  Returns (the value is an exact int, the rational value). -/
def toNum (v : Value) : Option (Bool × ℚ) :=
  match v with
  | .intV n => some (true, (n : ℚ))
  | .floatV q => some (false, q)
  | .boolV b => some (true, if b then 1 else 0)
  | _ => none

/-- Package a numeric result back into a value with the host promotion rule:
the result is an int only when every operand was an int. -/
def numOut (isInt : Bool) (q : ℚ) : Value :=
  if isInt then
    if q.den = 1 then .intV q.num else .floatV q
  else .floatV q

/-- How many times p divides d. -/
def factorCount (fuel : Nat) (p d : Nat) : Nat :=
  match fuel with
  | 0 => 0
  | f + 1 => if 2 ≤ p && d % p = 0 && d ≠ 0 then factorCount f p (d / p) + 1 else 0

/-- Decimal digit string of a natural number. -/
def natDigits (fuel : Nat) (n : Nat) : List Char :=
  match fuel with
  | 0 => []
  | f + 1 =>
    if n < 10 then [Char.ofNat (n + '0'.toNat)]
    else natDigits f (n / 10) ++ [Char.ofNat (n % 10 + '0'.toNat)]

def natToString (n : Nat) : String := String.mk (natDigits (n + 1) n)

def intToString (n : ℤ) : String :=
  if n < 0 then "-" ++ natToString n.natAbs else natToString n.natAbs

/-- repr of a float whose exact value is the rational q.  A float that is
integral prints as N.0; one with a terminating decimal expansion prints as
that shortest decimal (which is what the host shortest-round-trip repr
produces when the value is exactly representable).  Magnitudes at which the
host switches to scientific notation, and values whose expansion does not
terminate (which can only arise from operations the host would round), are
outside the model. -/
def floatRepr (q : ℚ) : Except Exc String :=
  if 10 ^ 16 ≤ |q| then .error (.unmodeled "float repr: scientific notation range")
  else if q = 0 then .ok "0.0"
  else if q.den = 1 then .ok (intToString q.num ++ ".0")
  else
    let d := q.den
    let k2 := factorCount d 2 d
    let k5 := factorCount d 5 d
    if d = 2 ^ k2 * 5 ^ k5 then
      let k := Max.max k2 k5
      let m := (|q| * 10 ^ k).num.natAbs
      let ip := m / 10 ^ k
      let fp := m % 10 ^ k
      if ip = 0 && fp * 10000 < 10 ^ k then
        .error (.unmodeled "float repr: scientific notation range")
      else
        let fs := natToString fp
        let pad := String.mk (List.replicate (k - fs.length) '0')
        .ok ((if q < 0 then "-" else "") ++ natToString ip ++ "." ++ pad ++ fs)
    else .error (.unmodeled "float repr: value not exactly representable")

/-- Python repr of a string (as it appears inside a printed list): single
quotes around characters that need no escaping.  Strings containing quotes,
backslashes or non-printable characters take the host escaping machinery,
outside the model. -/
def strRepr (s : String) : Except Exc String :=
  if s.data.all (fun c =>
      c ≠ '\'' && c ≠ '"' && c ≠ '\\' && 32 ≤ c.toNat && c.toNat < 127) then
    .ok ("'" ++ s ++ "'")
  else .error (.unmodeled "string repr escaping")

mutual

/-- str(v), the conversion print applies to each argument: floats via repr,
booleans as True/False, strings verbatim, None as None, lists via repr of
the elements.  Function objects print with their memory address, outside the
model. -/
def pyStr (fuel : Nat) (st : Interp) (v : Value) : Except Exc String :=
  match fuel with
  | 0 => .error .fuelOut
  | f + 1 =>
    match v with
    | .intV n => .ok (intToString n)
    | .floatV q => floatRepr q
    | .strV s => .ok s
    | .boolV b => .ok (if b then "True" else "False")
    | .noneV => .ok "None"
    | .builtinV _ => .error (.unmodeled "function object repr")
    | .listV r =>
      match pyReprList f st (listsGet st r) with
      | .error e => .error e
      | .ok parts => .ok ("[" ++ String.intercalate ", " parts ++ "]")
termination_by structural fuel

/-- repr(v): like str(v) except that strings are quoted. -/
def pyRepr (fuel : Nat) (st : Interp) (v : Value) : Except Exc String :=
  match fuel with
  | 0 => .error .fuelOut
  | f + 1 =>
    match v with
    | .strV s => strRepr s
    | _ => pyStr f st v
termination_by structural fuel

def pyReprList (fuel : Nat) (st : Interp) (vs : List Value) : Except Exc (List String) :=
  match fuel with
  | 0 => .error .fuelOut
  | f + 1 =>
    match vs with
    | [] => .ok []
    | v :: rest =>
      match pyRepr f st v with
      | .error e => .error e
      | .ok s =>
        match pyReprList f st rest with
        | .error e => .error e
        | .ok ss => .ok (s :: ss)
termination_by structural fuel

end

/-! ## Host operator semantics (eval_expr BinOp / Compare cases) -/

/-- l + r : numbers add (bool as int), strings concatenate, lists
concatenate into a fresh list object; anything else is a host TypeError. -/
def pyAdd (st : Interp) (l r : Value) : Except Exc Value × Interp :=
  match l, r with
  | .strV a, .strV b => (.ok (.strV (a ++ b)), st)
  | .listV a, .listV b =>
    let (ref, st2) := allocList st (listsGet st a ++ listsGet st b)
    (.ok (.listV ref), st2)
  | _, _ =>
    match toNum l, toNum r with
    | some (il, ql), some (ir, qr) => (.ok (numOut (il && ir) (ql + qr)), st)
    | _, _ => (.error (.typeError "unsupported operand type(s) for +"), st)

/-- l - r : numbers only. -/
def pySub (l r : Value) : Except Exc Value :=
  match toNum l, toNum r with
  | some (il, ql), some (ir, qr) => .ok (numOut (il && ir) (ql - qr))
  | _, _ => .error (.typeError "unsupported operand type(s) for -")

/-- Repeat a list n times. -/
def repList (n : Nat) (xs : List Value) : List Value :=
  match n with
  | 0 => []
  | m + 1 => xs ++ repList m xs

/-- Repeat a string n times. -/
def repStr (n : Nat) (s : String) : String :=
  match n with
  | 0 => ""
  | m + 1 => s ++ repStr m s

/-- l * r : numbers multiply; a string or list times an int (either order)
replicates. -/
def pyMul (st : Interp) (l r : Value) : Except Exc Value × Interp :=
  match l, r with
  | .strV a, .intV n => (.ok (.strV (repStr n.toNat a)), st)
  | .intV n, .strV a => (.ok (.strV (repStr n.toNat a)), st)
  | .strV a, .boolV b => (.ok (.strV (if b then a else "")), st)
  | .boolV b, .strV a => (.ok (.strV (if b then a else "")), st)
  | .listV a, .intV n =>
    let (ref, st2) := allocList st (repList n.toNat (listsGet st a))
    (.ok (.listV ref), st2)
  | .intV n, .listV a =>
    let (ref, st2) := allocList st (repList n.toNat (listsGet st a))
    (.ok (.listV ref), st2)
  | _, _ =>
    match toNum l, toNum r with
    | some (il, ql), some (ir, qr) => (.ok (numOut (il && ir) (ql * qr)), st)
    | _, _ => (.error (.typeError "unsupported operand type(s) for *"), st)

/-- l / r : true division, always a float; ZeroDivisionError on zero. -/
def pyDiv (l r : Value) : Except Exc Value :=
  match toNum l, toNum r with
  | some (_, ql), some (_, qr) =>
    if qr = 0 then .error (.zeroDivError "division by zero")
    else .ok (.floatV (ql / qr))
  | _, _ => .error (.typeError "unsupported operand type(s) for /")

/-- l % r : remainder with the sign of the divisor (floor-based), int when
both operands are ints; ZeroDivisionError on zero. -/
def pyMod (l r : Value) : Except Exc Value :=
  match toNum l, toNum r with
  | some (il, ql), some (ir, qr) =>
    if qr = 0 then .error (.zeroDivError "modulo by zero")
    else .ok (numOut (il && ir) (ql - (Rat.floor (ql / qr) : ℚ) * qr))
  | _, _ => .error (.typeError "unsupported operand type(s) for %")

/-- l ** r : exact when the exponent is integral (negative exponents give
floats; 0 to a negative power is a ZeroDivisionError).  A non-integral
exponent takes the host float power, outside the exact model. -/
def pyPow (l r : Value) : Except Exc Value :=
  match toNum l, toNum r with
  | some (il, ql), some (ir, qr) =>
    if qr.den = 1 then
      let e := qr.num
      if 0 ≤ e then .ok (numOut (il && ir) (ql ^ e.toNat))
      else if ql = 0 then .error (.zeroDivError "zero to a negative power")
      else .ok (.floatV (ql ^ e))
    else .error (.unmodeled "non-integral exponent")
  | _, _ => .error (.typeError "unsupported operand type(s) for **")

mutual

/-- Structural equality l == r, as the host compares values: numbers by
value across int/float/bool, strings, None, function objects by identity,
lists elementwise (fuel bounds the depth; self-referential lists are outside
the model).  Values of unrelated kinds compare unequal. -/
def pyEq (fuel : Nat) (st : Interp) (l r : Value) : Except Exc Bool :=
  match fuel with
  | 0 => .error .fuelOut
  | f + 1 =>
    match l, r with
    | .strV a, .strV b => .ok (a = b)
    | .noneV, .noneV => .ok true
    | .builtinV a, .builtinV b => .ok (a = b)
    | .listV a, .listV b => pyEqList f st (listsGet st a) (listsGet st b)
    | _, _ =>
      match toNum l, toNum r with
      | some (_, ql), some (_, qr) => .ok (ql = qr)
      | _, _ => .ok false
termination_by structural fuel

def pyEqList (fuel : Nat) (st : Interp) (xs ys : List Value) : Except Exc Bool :=
  match fuel with
  | 0 => .error .fuelOut
  | f + 1 =>
    match xs, ys with
    | [], [] => .ok true
    | x :: xs2, y :: ys2 =>
      match pyEq f st x y with
      | .error e => .error e
      | .ok true => pyEqList f st xs2 ys2
      | .ok false => .ok false
    | _, _ => .ok false
termination_by structural fuel

end

/-- Strict order l < r : numbers across int/float/bool, strings
lexicographically by code point.  Ordering lists is left to the host
machinery (no claim exercises it); unrelated kinds are a TypeError. -/
def pyLt (l r : Value) : Except Exc Bool :=
  match l, r with
  | .strV a, .strV b => .ok (a < b)
  | .listV _, .listV _ => .error (.unmodeled "list ordering")
  | _, _ =>
    match toNum l, toNum r with
    | some (_, ql), some (_, qr) => .ok (decide (ql < qr))
    | _, _ => .error (.typeError "comparison not supported between these types")

/-- The Compare dispatch of eval_expr: six operators, results are bools. -/
def pyCompare (fuel : Nat) (st : Interp) (op : String) (l r : Value) : Except Exc Value :=
  if op = "==" then (pyEq fuel st l r).map .boolV
  else if op = "!=" then (pyEq fuel st l r).map (fun b => .boolV !b)
  else if op = "<" then (pyLt l r).map .boolV
  else if op = ">" then (pyLt r l).map .boolV
  else if op = "<=" then
    match pyLt r l with
    | .error e => .error e
    | .ok b => .ok (.boolV !b)
  else if op = ">=" then
    match pyLt l r with
    | .error e => .error e
    | .ok b => .ok (.boolV !b)
  else .error (.runtimeError ("Unknown cmp " ++ op))

/-- The BinOp dispatch of eval_expr. -/
def pyBinOp (st : Interp) (op : String) (l r : Value) : Except Exc Value × Interp :=
  if op = "+" then pyAdd st l r
  else if op = "-" then (pySub l r, st)
  else if op = "*" then pyMul st l r
  else if op = "/" then (pyDiv l r, st)
  else if op = "%" then (pyMod l r, st)
  else if op = "^" then (pyPow l r, st)
  else (.error (.runtimeError ("Unknown op " ++ op)), st)

/-! ## Built-ins (the lambdas installed by eval_program) -/

/-- Parse of int(string): optional sign, then digits, surrounding ASCII
whitespace allowed; anything else is a ValueError. -/
def parseIntString (s : String) : Except Exc ℤ :=
  let cs := (s.data.dropWhile (fun c => c = ' ' || c = '\t')).reverse
  let cs := (cs.dropWhile (fun c => c = ' ' || c = '\t')).reverse
  let (neg, ds) :=
    match cs with
    | '-' :: rest => (true, rest)
    | '+' :: rest => (false, rest)
    | _ => (false, cs)
  if !ds.isEmpty && ds.all (fun c => isDigitChar c) then
    let n : ℤ := digitsToNat ds
    .ok (if neg then -n else n)
  else .error (.valueError ("invalid literal for int() with base 10: " ++ s))

/-- int(v): ints unchanged, floats truncated toward zero, bools as 0/1,
strings parsed; other kinds a TypeError. -/
def pyInt (v : Value) : Except Exc ℤ :=
  match v with
  | .intV n => .ok n
  | .floatV q => .ok (truncRat q)
  | .boolV b => .ok (if b then 1 else 0)
  | .strV s => parseIntString s
  | _ => .error (.typeError "int() argument must be a string or a number")

/-- Clamping slice normalization s[a:b]: negative indices count from the
end, then both bounds clamp into [0, n]. -/
def sliceBound (n : ℤ) (i : ℤ) : ℕ :=
  let j := if i < 0 then n + i else i
  if j < 0 then 0 else if n < j then n.toNat else j.toNat

/-- range list from start, stop, step (step nonzero). -/
def rangeList (a b c : ℤ) : List Value :=
  if 0 < c then
    (List.range (((b - a) + (c - 1)).fdiv c).toNat).map (fun k => .intV (a + c * k))
  else
    (List.range (((a - b) + (-c - 1)).fdiv (-c)).toNat).map (fun k => .intV (a + c * k))

/-- A host lambda rejecting a wrong argument count. -/
def arityErr (name : String) : Exc :=
  .typeError (name ++ "() called with a wrong number of arguments")

/-- Comparison-based fold for min/max over the argument tuple. -/
def foldCmp (keepLeft : Value → Value → Except Exc Bool) (acc : Value) :
    List Value → Except Exc Value
  | [] => .ok acc
  | v :: rest =>
    match keepLeft acc v with
    | .error e => .error e
    | .ok true => foldCmp keepLeft acc rest
    | .ok false => foldCmp keepLeft v rest

/-- str of each printed value, joined with single spaces. -/
def pyStrJoin (fuel : Nat) (st : Interp) (vs : List Value) : Except Exc String :=
  match vs with
  | [] => .ok ""
  | [v] => pyStr fuel st v
  | v :: rest =>
    match pyStr fuel st v with
    | .error e => .error e
    | .ok s =>
      match pyStrJoin fuel st rest with
      | .error e => .error e
      | .ok s2 => .ok (s ++ " " ++ s2)

/-- Application of a built-in callable to the evaluated argument tuple:
fn(*args) for each lambda of eval_program, in source order.  The
transcendental math functions compute host floats with no exact rational
value; they are outside the model. -/
def applyBuiltin (fuel : Nat) (st : Interp) (b : Builtin) (args : List Value) :
    Except Exc Value × Interp :=
  match b with
  | .sin | .cos | .tan | .sqrt =>
    match args with
    | [_] => (.error (.unmodeled "transcendental math"), st)
    | _ => (.error (arityErr "math"), st)
  | .abs =>
    match args with
    | [v] =>
      match toNum v with
      | some (isInt, q) => (.ok (numOut isInt |q|), st)
      | none => (.error (.typeError "bad operand type for abs()"), st)
    | _ => (.error (arityErr "abs"), st)
  | .floor =>
    match args with
    | [v] =>
      match toNum v with
      | some (_, q) => (.ok (.intV (Rat.floor q)), st)
      | none => (.error (.typeError "must be real number"), st)
    | _ => (.error (arityErr "floor"), st)
  | .ceil =>
    match args with
    | [v] =>
      match toNum v with
      | some (_, q) => (.ok (.intV (-Rat.floor (-q))), st)
      | none => (.error (.typeError "must be real number"), st)
    | _ => (.error (arityErr "ceil"), st)
  | .round =>
    match args with
    | [v] =>
      match toNum v with
      | some (_, q) => (.ok (.intV (roundHalfEven q)), st)
      | none => (.error (.typeError "must be real number"), st)
    | _ => (.error (arityErr "round"), st)
  | .min =>
    match args with
    | [] => (.error (.typeError "min expected at least 1 argument, got 0"), st)
    | v :: rest =>
      (foldCmp (fun acc w => (pyLt w acc).map (fun b2 => !b2)) v rest, st)
  | .max =>
    match args with
    | [] => (.error (.typeError "max expected at least 1 argument, got 0"), st)
    | v :: rest =>
      (foldCmp (fun acc w => (pyLt acc w).map (fun b2 => !b2)) v rest, st)
  | .pow =>
    match args with
    | [x, y] => (pyPow x y, st)
    | _ => (.error (arityErr "pow"), st)
  | .len =>
    match args with
    | [.strV s] => (.ok (.intV s.length), st)
    | [.listV r] => (.ok (.intV (listsGet st r).length), st)
    | [_] => (.error (.typeError "object has no len()"), st)
    | _ => (.error (arityErr "len"), st)
  | .upper =>
    match args with
    | [.strV s] => (.ok (.strV s.toUpper), st)
    | [_] => (.error (.attrError "object has no attribute upper"), st)
    | _ => (.error (arityErr "upper"), st)
  | .lower =>
    match args with
    | [.strV s] => (.ok (.strV s.toLower), st)
    | [_] => (.error (.attrError "object has no attribute lower"), st)
    | _ => (.error (arityErr "lower"), st)
  | .substr =>
    match args with
    | [.strV s, a] =>
      match pyInt a with
      | .error e => (.error e, st)
      | .ok i =>
        let n : ℤ := s.length
        (.ok (.strV (String.mk ((s.data.drop (sliceBound n i)).take
          (n.toNat - sliceBound n i)))), st)
    | [.strV s, a, e2] =>
      match pyInt a with
      | .error e => (.error e, st)
      | .ok i =>
        match pyInt e2 with
        | .error e => (.error e, st)
        | .ok j =>
          let n : ℤ := s.length
          let lo := sliceBound n i
          let hi := sliceBound n j
          (.ok (.strV (String.mk ((s.data.drop lo).take (hi - lo)))), st)
    | [_, _] | [_, _, _] => (.error (.typeError "substr: not subscriptable"), st)
    | _ => (.error (arityErr "substr"), st)
  | .push | .append =>
    match args with
    | [.listV r, item] =>
      (.ok (.listV r), listsSet st r (listsGet st r ++ [item]))
    | [_, _] => (.error (.attrError "object has no attribute append"), st)
    | _ => (.error (arityErr "push"), st)
  | .pop =>
    match args with
    | [v] =>
      if truthy st v then
        match v with
        | .listV r =>
          let xs := listsGet st r
          (.ok ((xs.getLast?).getD .noneV), listsSet st r xs.dropLast)
        | _ => (.error (.attrError "object has no attribute pop"), st)
      else (.ok .noneV, st)
    | _ => (.error (arityErr "pop"), st)
  | .input =>
    match args with
    | [] =>
      match st.inputs with
      | [] => (.error .eofError, st)
      | l :: rest => (.ok (.strV l), { st with inputs := rest })
    | [v] =>
      match pyStr fuel st v with
      | .error e => (.error e, st)
      | .ok prompt =>
        let st2 := { st with output := st.output ++ prompt }
        match st2.inputs with
        | [] => (.error .eofError, st2)
        | l :: rest => (.ok (.strV l), { st2 with inputs := rest })
    | _ => (.error (arityErr "input"), st)
  | .type =>
    match args with
    | [v] =>
      match v with
      | .boolV _ => (.ok (.strV "bool"), st)
      | .intV _ => (.ok (.strV "number"), st)
      | .floatV _ => (.ok (.strV "number"), st)
      | .strV _ => (.ok (.strV "string"), st)
      | .listV _ => (.ok (.strV "list"), st)
      | _ => (.ok (.strV "unknown"), st)
    | _ => (.error (arityErr "type"), st)
  | .range =>
    match args with
    | [v] =>
      match pyInt v with
      | .error e => (.error e, st)
      | .ok b =>
        let (ref, st2) := allocList st (rangeList 0 b 1)
        (.ok (.listV ref), st2)
    | [v, w] =>
      match pyInt v with
      | .error e => (.error e, st)
      | .ok a =>
        match pyInt w with
        | .error e => (.error e, st)
        | .ok b =>
          let (ref, st2) := allocList st (rangeList a b 1)
          (.ok (.listV ref), st2)
    | [v, w, x] =>
      match pyInt v with
      | .error e => (.error e, st)
      | .ok a =>
        match pyInt w with
        | .error e => (.error e, st)
        | .ok b =>
          match pyInt x with
          | .error e => (.error e, st)
          | .ok c =>
            if c = 0 then (.error (.valueError "range() arg 3 must not be zero"), st)
            else
              let (ref, st2) := allocList st (rangeList a b c)
              (.ok (.listV ref), st2)
    | _ =>
      let (ref, st2) := allocList st []
      (.ok (.listV ref), st2)
  | .print =>
    match pyStrJoin fuel st args with
    | .error e => (.error e, st)
    | .ok line => (.ok .noneV, { st with output := st.output ++ line ++ "\n" })

/-! ## Evaluator (djerba.py lines 461-582) -/

/-- child.vars[name] = v : direct dict store into one frame (parameter and
loop-variable binding). -/
def frameSetVar (st : Interp) (idx : Nat) (name : String) (v : Value) : Interp :=
  match st.frames.get? idx with
  | none => st
  | some fr => { st with frames := st.frames.set idx { fr with vars := aset fr.vars name v } }

mutual

/-- eval_expr. -/
def evalExpr : Nat → Node → Nat → Interp → (Except Exc Value) × Interp
  | 0, _, _, st => (.error .fuelOut, st)
  | f + 1, node, env, st =>
    match node with
    | .num q => (.ok (.floatV q), st)
    | .str s => (.ok (.strV s), st)
    | .bool b => (.ok (.boolV b), st)
    | .listLit elems =>
      match evalArgs f elems env st with
      | (.error e, st1) => (.error e, st1)
      | (.ok vs, st1) =>
        let (ref, st2) := allocList st1 vs
        (.ok (.listV ref), st2)
    | .var name => (envGet f st env name, st)
    | .binOp op l r =>
      match evalExpr f l env st with
      | (.error e, st1) => (.error e, st1)
      | (.ok lv, st1) =>
        match evalExpr f r env st1 with
        | (.error e, st2) => (.error e, st2)
        | (.ok rv, st2) => pyBinOp st2 op lv rv
    | .compare op l r =>
      match evalExpr f l env st with
      | (.error e, st1) => (.error e, st1)
      | (.ok lv, st1) =>
        match evalExpr f r env st1 with
        | (.error e, st2) => (.error e, st2)
        | (.ok rv, st2) => (pyCompare f st2 op lv rv, st2)
    | .logicalOp op l rOpt =>
      if op = "not" then
        match evalExpr f l env st with
        | (.error e, st1) => (.error e, st1)
        | (.ok v, st1) => (.ok (.boolV (!truthy st1 v)), st1)
      else
        match evalExpr f l env st with
        | (.error e, st1) => (.error e, st1)
        | (.ok lv, st1) =>
          if op = "and" then
            if truthy st1 lv then
              match rOpt with
              | none => (.error (.runtimeError "Unhandled expr node"), st1)
              | some rn =>
                match evalExpr f rn env st1 with
                | (.error e, st2) => (.error e, st2)
                | (.ok rv, st2) => (.ok (.boolV (truthy st2 rv)), st2)
            else (.ok (.boolV false), st1)
          else if op = "or" then
            if truthy st1 lv then (.ok (.boolV true), st1)
            else
              match rOpt with
              | none => (.error (.runtimeError "Unhandled expr node"), st1)
              | some rn =>
                match evalExpr f rn env st1 with
                | (.error e, st2) => (.error e, st2)
                | (.ok rv, st2) => (.ok (.boolV (truthy st2 rv)), st2)
          else (.error (.runtimeError ("Unknown logical op " ++ op)), st1)
    | .index o ix =>
      match evalExpr f o env st with
      | (.error e, st1) => (.error e, st1)
      | (.ok obj, st1) =>
        match evalExpr f ix env st1 with
        | (.error e, st2) => (.error e, st2)
        | (.ok idxv, st2) =>
          match obj with
          | .listV r =>
            match pyInt idxv with
            | .error e => (.error e, st2)
            | .ok i =>
              let xs := listsGet st2 r
              let n : ℤ := xs.length
              let j := if i < 0 then i + n else i
              if 0 ≤ j && j < n then (.ok (xs.getD j.toNat .noneV), st2)
              else (.error (.indexError "list index out of range"), st2)
          | .strV s =>
            match pyInt idxv with
            | .error e => (.error e, st2)
            | .ok i =>
              let n : ℤ := s.length
              let j := if i < 0 then i + n else i
              if 0 ≤ j && j < n then
                (.ok (.strV (String.mk [(s.data.getD j.toNat ' ')])), st2)
              else (.error (.indexError "string index out of range"), st2)
          | _ => (.error (.typeError "Cannot index value"), st2)
    | .call name cargs =>
      -- the try block of the Call case spans function lookup, arity check,
      -- argument evaluation, parameter binding and body execution; a
      -- NameError raised anywhere inside it reaches the except clause below
      let attempt : (Except Exc Value) × Interp :=
        match envGetFunc f st env name with
        | .error e => (.error e, st)
        | .ok fn =>
          let na := cargs.length
          let np := fn.params.length
          if na ≠ np then
            (.error (.typeError (fn.name ++ " expects " ++ natToString np ++
              " args, got " ++ natToString na)), st)
          else
            let (child, st1) := allocFrame st (some env)
            match bindParams f fn.params cargs env child st1 with
            | (.error e, st2) => (.error e, st2)
            | (.ok _, st2) =>
              match runBlock f fn.body child st2 with
              | (.ok _, st3) => (.ok .noneV, st3)
              | (.error (.returnSig v), st3) => (.ok v, st3)
              | (.error e, st3) => (.error e, st3)
      match attempt with
      | (.error (.nameError m), st4) =>
        -- except NameError: try a built-in callable in the vars of the
        -- current frame only (env.vars.get); re-raise if not callable
        match st4.frames.get? env with
        | none => (.error (.nameError m), st4)
        | some fr =>
          match aget fr.vars name with
          | some (.builtinV b) =>
            match evalArgs f cargs env st4 with
            | (.error e, st5) => (.error e, st5)
            | (.ok vs, st5) => applyBuiltin f st5 b vs
          | _ => (.error (.nameError m), st4)
      | r => r
    | _ => (.error (.runtimeError "Unhandled expr node"), st)
termination_by structural fuel _ _ _ => fuel

/-- Left-to-right evaluation of an expression list (print arguments, list
literal elements, built-in call arguments). -/
def evalArgs (fuel : Nat) (ns : List Node) (env : Nat) (st : Interp) :
    (Except Exc (List Value)) × Interp :=
  match fuel with
  | 0 => (.error .fuelOut, st)
  | f + 1 =>
    match ns with
    | [] => (.ok [], st)
    | n :: rest =>
      match evalExpr f n env st with
      | (.error e, st1) => (.error e, st1)
      | (.ok v, st1) =>
        match evalArgs f rest env st1 with
        | (.error e, st2) => (.error e, st2)
        | (.ok vs, st2) => (.ok (v :: vs), st2)
termination_by structural fuel

/-- zip(f.params, node.args): evaluate each argument in the caller
environment and bind it directly into the child frame. -/
def bindParams (fuel : Nat) (ps : List String) (args : List Node) (callerEnv : Nat)
    (child : Nat) (st : Interp) : (Except Exc Unit) × Interp :=
  match fuel with
  | 0 => (.error .fuelOut, st)
  | f + 1 =>
    match ps, args with
    | p :: ps2, a :: as2 =>
      match evalExpr f a callerEnv st with
      | (.error e, st1) => (.error e, st1)
      | (.ok v, st1) => bindParams f ps2 as2 callerEnv child (frameSetVar st1 child p v)
    | _, _ => (.ok (), st)
termination_by structural fuel

/-- eval_stmt. -/
def evalStmt (fuel : Nat) (node : Node) (env : Nat) (st : Interp) :
    (Except Exc Unit) × Interp :=
  match fuel with
  | 0 => (.error .fuelOut, st)
  | f + 1 =>
    match node with
    | .print pargs =>
      match evalArgs f pargs env st with
      | (.error e, st1) => (.error e, st1)
      | (.ok vs, st1) =>
        match pyStrJoin f st1 vs with
        | .error e => (.error e, st1)
        | .ok line => (.ok (), { st1 with output := st1.output ++ line ++ "\n" })
    | .assign name expr =>
      match evalExpr f expr env st with
      | (.error e, st1) => (.error e, st1)
      | (.ok v, st1) =>
        match envSet f st1 env name v with
        | .error e => (.error e, st1)
        | .ok st2 => (.ok (), st2)
    | .ifS cond then_ els =>
      match evalExpr f cond env st with
      | (.error e, st1) => (.error e, st1)
      | (.ok c, st1) =>
        if truthy st1 c then
          let (child, st2) := allocFrame st1 (some env)
          runBlock f then_ child st2
        else
          match els with
          | some eb =>
            let (child, st2) := allocFrame st1 (some env)
            runBlock f eb child st2
          | none => (.ok (), st1)
    | .whileS cond body => whileLoop f cond body env st
    | .forLoop var iter body =>
      match evalExpr f iter env st with
      | (.error e, st1) => (.error e, st1)
      | (.ok it, st1) =>
        match it with
        | .listV r => forList f var body env r 0 st1
        | .strV s =>
          forItems f var body env (s.data.map (fun c => .strV (String.mk [c]))) st1
        | _ => (.error (.typeError "Cannot iterate over value"), st1)
    | .funcDef name params body => (.ok (), defineFunc st env ⟨name, params, body⟩)
    | .ret expr =>
      match evalExpr f expr env st with
      | (.error e, st1) => (.error e, st1)
      | (.ok v, st1) => (.error (.returnSig v), st1)
    | .brk => (.error .breakSig, st)
    | .cont => (.error .continueSig, st)
    | _ =>
      match evalExpr f node env st with
      | (.error e, st1) => (.error e, st1)
      | (.ok _, st1) => (.ok (), st1)
termination_by structural fuel

/-- run_block: statements in order; the first exception aborts the block. -/
def runBlock (fuel : Nat) (stmts : List Node) (env : Nat) (st : Interp) :
    (Except Exc Unit) × Interp :=
  match fuel with
  | 0 => (.error .fuelOut, st)
  | f + 1 =>
    match stmts with
    | [] => (.ok (), st)
    | s :: rest =>
      match evalStmt f s env st with
      | (.error e, st1) => (.error e, st1)
      | (.ok _, st1) => runBlock f rest env st1
termination_by structural fuel

/-- The While statement: re-check the condition in the loop environment,
run the body in a fresh child frame, absorb Continue and Break, and - as
the source does - catch a ReturnSignal with pass, silently discarding it
and proceeding to the next condition check. -/
def whileLoop (fuel : Nat) (cond : Node) (body : List Node) (env : Nat) (st : Interp) :
    (Except Exc Unit) × Interp :=
  match fuel with
  | 0 => (.error .fuelOut, st)
  | f + 1 =>
    match evalExpr f cond env st with
    | (.error e, st1) => (.error e, st1)
    | (.ok c, st1) =>
      if truthy st1 c then
        let (child, st2) := allocFrame st1 (some env)
        match runBlock f body child st2 with
        | (.ok _, st3) => whileLoop f cond body env st3
        | (.error .continueSig, st3) => whileLoop f cond body env st3
        | (.error .breakSig, st3) => (.ok (), st3)
        | (.error (.returnSig _), st3) => whileLoop f cond body env st3
        | (.error e, st3) => (.error e, st3)
      else (.ok (), st1)
termination_by structural fuel

/-- The ForLoop statement over a list object: the host list iterator reads
the live list by position, so the body sees its own mutations.  Each
iteration binds the loop variable in a fresh child frame; Continue and
Break are absorbed, everything else (including ReturnSignal) propagates. -/
def forList (fuel : Nat) (var : String) (body : List Node) (env : Nat) (r : Nat)
    (k : Nat) (st : Interp) : (Except Exc Unit) × Interp :=
  match fuel with
  | 0 => (.error .fuelOut, st)
  | f + 1 =>
    let xs := listsGet st r
    if k < xs.length then
      let (child, st1) := allocFrame st (some env)
      let st2 := frameSetVar st1 child var (xs.getD k .noneV)
      match runBlock f body child st2 with
      | (.ok _, st3) => forList f var body env r (k + 1) st3
      | (.error .continueSig, st3) => forList f var body env r (k + 1) st3
      | (.error .breakSig, st3) => (.ok (), st3)
      | (.error e, st3) => (.error e, st3)
    else (.ok (), st)
termination_by structural fuel

/-- The ForLoop statement over the characters of a string (an immutable
iteration source). -/
def forItems (fuel : Nat) (var : String) (body : List Node) (env : Nat)
    (items : List Value) (st : Interp) : (Except Exc Unit) × Interp :=
  match fuel with
  | 0 => (.error .fuelOut, st)
  | f + 1 =>
    match items with
    | [] => (.ok (), st)
    | item :: rest =>
      let (child, st1) := allocFrame st (some env)
      let st2 := frameSetVar st1 child var item
      match runBlock f body child st2 with
      | (.ok _, st3) => forItems f var body env rest st3
      | (.error .continueSig, st3) => forItems f var body env rest st3
      | (.error .breakSig, st3) => (.ok (), st3)
      | (.error e, st3) => (.error e, st3)
termination_by structural fuel

end

/-! ## Program runner (eval_program and main, djerba.py lines 381-459, 588-597) -/

/-- math.pi as the exact rational value of the double. -/
def piFloat : ℚ := 884279719003555 / 281474976710656

/-- math.e as the exact rational value of the double. -/
def eFloat : ℚ := 6121026514868073 / 2251799813685248

/-- The root frame vars after eval_program installs every built-in, in
source insertion order. -/
def rootVars : List (String × Value) :=
  [("PI", .floatV piFloat), ("E", .floatV eFloat),
   ("sin", .builtinV .sin), ("cos", .builtinV .cos), ("tan", .builtinV .tan),
   ("sqrt", .builtinV .sqrt), ("abs", .builtinV .abs), ("floor", .builtinV .floor),
   ("ceil", .builtinV .ceil), ("round", .builtinV .round), ("min", .builtinV .min),
   ("max", .builtinV .max), ("pow", .builtinV .pow),
   ("len", .builtinV .len), ("upper", .builtinV .upper), ("lower", .builtinV .lower),
   ("substr", .builtinV .substr),
   ("push", .builtinV .push), ("pop", .builtinV .pop), ("append", .builtinV .append),
   ("input", .builtinV .input), ("type", .builtinV .type), ("range", .builtinV .range),
   ("print", .builtinV .print)]

/-- The world at the start of evaluation: only the root environment. -/
def initInterp (inputs : List String) : Interp :=
  ⟨[⟨none, rootVars, []⟩], [], "", inputs⟩

/-- eval_program: run the program body in the root environment. -/
def evalProgram (fuel : Nat) (p : Node) (inputs : List String) :
    (Except Exc Unit) × Interp :=
  match p with
  | .program body => runBlock fuel body 0 (initInterp inputs)
  | _ => (.error (.runtimeError "not a program"), initInterp inputs)

/-- What a whole run of the interpreter produces: a parse failure, an
uncaught exception (with whatever had been printed before it), or normal
termination with the standard output. -/
inductive Outcome where
  | parseFail (e : PErr)
  | exc (e : Exc) (out : String)
  | ok (out : String)
deriving DecidableEq, Repr

/-- main on an already-loaded source, with the given stdin lines: lex,
parse, evaluate.  Nothing catches the control-flow signals or errors, so
they surface in the Outcome. -/
def runWith (fuel : Nat) (src : String) (inputs : List String) : Outcome :=
  match pParse fuel (lex src) with
  | .error e => .parseFail e
  | .ok prog =>
    match evalProgram fuel prog inputs with
    | (.ok _, st) => .ok st.output
    | (.error e, st) => .exc e st.output

/-- main for a program that reads no input. -/
def run (fuel : Nat) (src : String) : Outcome := runWith fuel src []

/-! ## States used by the indexing claim -/

/-- A world with one frame binding "a" to the list object xs. -/
def idxStateL (xs : List Value) : Interp :=
  ⟨[⟨none, [("a", .listV 0)], []⟩], [xs], "", []⟩

/-- A world with one frame binding "a" to the string s. -/
def idxStateS (s : String) : Interp :=
  ⟨[⟨none, [("a", .strV s)], []⟩], [], "", []⟩

/-! ## Theorems settling the claims -/

/-- int() truncation is the identity on integral floats. -/
theorem truncRat_intCast (i : ℤ) : truncRat (i : ℚ) = i := by
  unfold truncRat
  have hf : ∀ z : ℤ, Rat.floor (z : ℚ) = z := fun z => by simp [Rat.floor]
  rcases le_or_lt 0 ((i : ℚ)) with h | h
  · rw [if_pos h, hf]
  · rw [if_neg (not_le.mpr h), ← Int.cast_neg, hf, neg_neg]

/-- C1 (counterexample): the exact program of the claim — `$x <- 1` at the
call site, `@f() { :> x }`, then `f()` — does not fail with NameError as the
claim asserts: it runs to completion and prints 1.0, because the call frame
is created with the caller environment as its parent and the body finds x
through it. -/
theorem C1_counterexample :
    run 300 "$x <- 1\n@f() { :> x }\nf()" = .ok "1.0\n" := by decide

/-- C1 (amended): a user-defined function call creates its frame with the
caller environment as parent, so the body CAN read caller locals.  The
claim program prints 1.0 instead of raising NameError; and even a local
bound inside an if-block frame (invisible from the root environment) is
readable by a function called from that block, which separates
caller-parenting from the root-parenting the spec describes. -/
theorem C1_call_frame_parent_is_caller :
    run 300 "$x <- 1\n@f() { :> x }\nf()" = .ok "1.0\n" ∧
    run 300 "? true \x7b $y <- 1\n@f() \x7b !> y \x7d\n:> f() \x7d" = .ok "1.0\n" :=
  ⟨by decide, by decide⟩

/-- C2 (code bug): the While handler catches ReturnSignal and discards it
with pass, so a `!>` inside a while body does not propagate out of the loop.
First conjunct: in the failing program the first return (42) is swallowed,
the loop runs to completion and the later `!> 7` wins, so the call prints
7.0 where the claim (and the spec state machine) require 42.  Second
conjunct: a loop `~ true { !> 42 }` never terminates at any fuel — the
return can never exit the loop at all. -/
theorem C2_while_absorbs_return_signal :
    run 300 "@f() \x7b $i <- 0\n~ $i < 1 \x7b $i <- $i + 1\n!> 42 \x7d\n!> 7 \x7d\n:> f()" = .ok "7.0\n" ∧
    ∀ fuel env st, (whileLoop fuel (.bool true) [.ret (.num 42)] env st).fst
      = .error .fuelOut := by
  refine ⟨by decide, fun fuel => ?_⟩
  induction fuel using Nat.strong_induction_on with
  | _ fuel ih =>
    match fuel with
    | 0 => intro env st; rfl
    | 1 => intro env st; rfl
    | 2 => intro env st; rfl
    | 3 => intro env st; rfl
    | (n + 4) =>
      intro env st
      exact ih (n + 3) (by omega) env { st with frames := st.frames ++ [⟨some env, [], []⟩] }

/-- C3 (code bug): Environment.set consults only the immediate parent frame
before falling back to a fresh binding, so an ancestor two or more levels up
is never updated.  First conjunct: in the failing program the root binds x,
two nested if-blocks deep `$x <- 2` creates a shadow binding in the inner
block frame, and the final print shows the untouched root value 1.0 where
the claim requires 2.0.  Second conjunct: on a bare three-frame chain whose
root alone defines x, set on the innermost frame leaves the root binding
untouched and creates x in the innermost frame. -/
theorem C3_assign_consults_only_immediate_parent :
    run 300 "$x <- 1\n? true { ? true { $x <- 2 } }\n:> $x" = .ok "1.0\n" ∧
    envSet 10 ⟨[⟨none, [("x", .floatV 1)], []⟩, ⟨some 0, [], []⟩, ⟨some 1, [], []⟩], [], "", []⟩
        2 "x" (.floatV 2)
      = .ok ⟨[⟨none, [("x", .floatV 1)], []⟩, ⟨some 0, [], []⟩,
              ⟨some 1, [("x", .floatV 2)], []⟩], [], "", []⟩ :=
  ⟨by decide, rfl⟩

/-- C4 (counterexample): lexing a source with a byte no pattern matches (the
ampersand) does not fail — there is no LexError — and produces the token
stream of the recognizable parts, the stray byte silently skipped. -/
theorem C4_counterexample :
    lex "1&2" = [⟨.NUMBER, "1", 0⟩, ⟨.NUMBER, "2", 2⟩, ⟨.EOF, "", 3⟩] := by decide

/-- C4 (amended): the lexer never fails on unrecognizable input: at a byte
where no pattern of the table matches (a stray ampersand or backtick, in any
left context and at any position), the scan resumes at the next byte exactly
as re.finditer does, and a token stream is still produced. -/
theorem C4_lexer_skips_unmatched_bytes (cs : List Char) (b : Bool) (p fuel : Nat) :
    lexAux (fuel + 1) ('&' :: cs) b p = lexAux fuel cs false (p + 1) ∧
    lexAux (fuel + 1) ('`' :: cs) b p = lexAux fuel cs false (p + 1) ∧
    lex "a&b" = [⟨.IDENT, "a", 0⟩, ⟨.IDENT, "b", 2⟩, ⟨.EOF, "", 3⟩] := by
  refine ⟨?_, ?_, by decide⟩ <;> cases b <;> rfl

/-- C5 (counterexample): a free-standing break is not reported as a
ControlFlowError (no such error kind exists in the implementation): the raw
internal BreakSignal escapes uncaught to the top level. -/
theorem C5_counterexample :
    run 100 "break" = .exc .breakSig "" := by decide

/-- C5 (amended): free-standing `continue` and `!>` outside any loop or
function escape as their internal signals (ContinueSignal, ReturnSignal
carrying the value), and a break inside a function body but outside any loop
passes through the call boundary and escapes the same way; nothing converts
them into a ControlFlowError, so the internal signals are user-visible. -/
theorem C5_signals_escape_uncaught :
    run 100 "continue" = .exc .continueSig "" ∧
    run 100 "!> 1" = .exc (.returnSig (.floatV 1)) "" ∧
    run 300 "@h() { break }\nh()" = .exc .breakSig "" :=
  ⟨by decide, by decide, by decide⟩

/-- C6 (counterexample): inside an if-block frame, the call len("ab") fails
with NameError even though len is bound to a built-in in the root frame,
because the fallback consults only the current frame's own vars — where the
claim asserts the call succeeds in any frame. -/
theorem C6_counterexample :
    run 300 "? true \x7b :> len(\"ab\") \x7d"
      = .exc (.nameError "Undefined function len()") "" := by decide

/-- C6 (amended): the built-in fallback of call dispatch reads only the
current frame's own variable mapping.  At top level the current frame is the
root, so len("ab") resolves and prints 2; the identical call inside a
function-call frame fails with NameError because the fallback does not walk
the environment chain to the root bindings. -/
theorem C6_builtin_fallback_current_frame_only :
    run 300 ":> len(\"ab\")" = .ok "2\n" ∧
    run 300 "@g() \x7b :> len(\"ab\") \x7d\ng()"
      = .exc (.nameError "Undefined function len()") "" :=
  ⟨by decide, by decide⟩

/-- C7 (counterexample): the one-line program does not write the line 14:
number literals are floats and the host float formatter renders 14.0, so the
output line is 14.0. -/
theorem C7_counterexample :
    run 300 ":> 2 + 3 * 4" = .ok "14.0\n" ∧ ("14.0\n" : String) ≠ "14\n" :=
  ⟨by decide, by decide⟩

/-- C7 (amended): running the one-line program `:> 2 + 3 * 4` writes exactly
the line 14.0 — the arithmetic value is 14, rendered with the trailing .0 of
the host float formatting, as §6/§9 of the spec anticipate. -/
theorem C7_print_uses_host_float_format :
    run 300 ":> 2 + 3 * 4" = .ok "14.0\n" := by decide

/-- C8: operator precedence and associativity at the parser, for arbitrary
NUMBER lexemes and token offsets: `a + b * c` parses to the same tree as
`a + (b * c)` — the sum of a with the product — and `a ^ b ^ c` parses to
the same tree as `(a ^ b) ^ c` — power folds left.  Equal trees evaluate
identically, so the two surface expressions always produce the same value. -/
theorem C8_precedence_and_left_assoc_power
    (s1 s2 s3 : String) (p1 p2 p3 p4 p5 p6 p7 p8 : Nat) :
    (pExpr 30 [⟨.NUMBER, s1, p1⟩, ⟨.OP, "+", p2⟩, ⟨.NUMBER, s2, p3⟩,
               ⟨.OP, "*", p4⟩, ⟨.NUMBER, s3, p5⟩, ⟨.EOF, "", p6⟩] 0
      = .ok (.binOp "+" (.num (lexFloat s1))
              (.binOp "*" (.num (lexFloat s2)) (.num (lexFloat s3))), 5))
  ∧ (pExpr 30 [⟨.NUMBER, s1, p1⟩, ⟨.OP, "+", p2⟩, ⟨.LPAREN, "(", p3⟩, ⟨.NUMBER, s2, p4⟩,
               ⟨.OP, "*", p5⟩, ⟨.NUMBER, s3, p6⟩, ⟨.RPAREN, ")", p7⟩, ⟨.EOF, "", p8⟩] 0
      = .ok (.binOp "+" (.num (lexFloat s1))
              (.binOp "*" (.num (lexFloat s2)) (.num (lexFloat s3))), 7))
  ∧ (pExpr 30 [⟨.NUMBER, s1, p1⟩, ⟨.OP, "^", p2⟩, ⟨.NUMBER, s2, p3⟩,
               ⟨.OP, "^", p4⟩, ⟨.NUMBER, s3, p5⟩, ⟨.EOF, "", p6⟩] 0
      = .ok (.binOp "^" (.binOp "^" (.num (lexFloat s1)) (.num (lexFloat s2)))
              (.num (lexFloat s3)), 5))
  ∧ (pExpr 30 [⟨.LPAREN, "(", p1⟩, ⟨.NUMBER, s1, p2⟩, ⟨.OP, "^", p3⟩, ⟨.NUMBER, s2, p4⟩,
               ⟨.RPAREN, ")", p5⟩, ⟨.OP, "^", p6⟩, ⟨.NUMBER, s3, p7⟩, ⟨.EOF, "", p8⟩] 0
      = .ok (.binOp "^" (.binOp "^" (.num (lexFloat s1)) (.num (lexFloat s2)))
              (.num (lexFloat s3)), 7)) := by
  refine ⟨?_, ?_, ?_, ?_⟩ <;>
    simp [pExpr, pLogicalOr, pLogicalAnd, pLogicalNot, pCompare, pTerm, pFactor, pPower,
          pUnary, pPrimary, pOrLoop, pAndLoop, pCmpLoop, pTermLoop, pFactorLoop, pPowerLoop,
          pIndexLoop, peekT, expectT, matchT, getTok, tokValue]

/-- C9: the pop built-in applied to an empty list object raises no error at
all: the truthiness guard short-circuits before the host pop runs, the value
None is returned and the whole world — the list store included — is left
unchanged, so the list stays empty. -/
theorem C9_pop_empty_list_returns_none (fuel : Nat) (st : Interp) (r : Nat)
    (h : listsGet st r = []) :
    applyBuiltin fuel st .pop [.listV r] = (.ok .noneV, st) := by
  simp [applyBuiltin, truthy, h]

/-- C9 witness: pop on a concrete empty list in a one-list store. -/
theorem C9_pop_empty_list_returns_none_witness :
    listsGet ⟨[], [[]], "", []⟩ 0 = [] ∧
    applyBuiltin 5 ⟨[], [[]], "", []⟩ .pop [.listV 0] = (.ok .noneV, ⟨[], [[]], "", []⟩) :=
  ⟨rfl, C9_pop_empty_list_returns_none 5 ⟨[], [[]], "", []⟩ 0 rfl⟩

/-- C10: indexing `$a[i]` on a list or string value of length n accepts
negative indices: for -n ≤ i < 0 it returns the element at position n + i
and the world is unchanged; for 0 ≤ i < n the element at position i; and
only indices outside [-n, n) fail with IndexError. -/
theorem C10_negative_indexing (xs : List Value) (s : String) (i : ℤ) :
    ((-(xs.length : ℤ) ≤ i ∧ i < 0 →
        evalExpr 3 (.index (.var "a") (.num (i : ℚ))) 0 (idxStateL xs)
          = (.ok (xs.getD (i + (xs.length : ℤ)).toNat .noneV), idxStateL xs))
     ∧ (0 ≤ i ∧ i < (xs.length : ℤ) →
        evalExpr 3 (.index (.var "a") (.num (i : ℚ))) 0 (idxStateL xs)
          = (.ok (xs.getD i.toNat .noneV), idxStateL xs))
     ∧ (i < -(xs.length : ℤ) ∨ (xs.length : ℤ) ≤ i →
        evalExpr 3 (.index (.var "a") (.num (i : ℚ))) 0 (idxStateL xs)
          = (.error (.indexError "list index out of range"), idxStateL xs)))
  ∧ ((-(s.length : ℤ) ≤ i ∧ i < 0 →
        evalExpr 3 (.index (.var "a") (.num (i : ℚ))) 0 (idxStateS s)
          = (.ok (.strV (String.mk [s.data.getD (i + (s.length : ℤ)).toNat ' '])), idxStateS s))
     ∧ (0 ≤ i ∧ i < (s.length : ℤ) →
        evalExpr 3 (.index (.var "a") (.num (i : ℚ))) 0 (idxStateS s)
          = (.ok (.strV (String.mk [s.data.getD i.toNat ' '])), idxStateS s))
     ∧ (i < -(s.length : ℤ) ∨ (s.length : ℤ) ≤ i →
        evalExpr 3 (.index (.var "a") (.num (i : ℚ))) 0 (idxStateS s)
          = (.error (.indexError "string index out of range"), idxStateS s))) := by
  refine ⟨⟨fun h => ?_, fun h => ?_, fun h => ?_⟩, ⟨fun h => ?_, fun h => ?_, fun h => ?_⟩⟩ <;>
    simp only [evalExpr, envGet, idxStateL, idxStateS, listsGet, aget, pyInt, truncRat_intCast]
  · have ha : (0:ℤ) ≤ i + (xs.length:ℤ) := by omega
    have hb : i + (xs.length:ℤ) < (xs.length:ℤ) := by omega
    simp [List.find?, h.2, ha, hb]
  · have hneg : ¬ (i < 0) := by omega
    simp [List.find?, hneg, h.1, h.2]
  · by_cases hneg : i < 0
    · have hff : ¬ ((0:ℤ) ≤ i + (xs.length : ℤ)) := by omega
      simp [List.find?, hneg, hff]
    · have hff : ¬ (i < (xs.length : ℤ)) := by omega
      simp [List.find?, hneg, hff]
  · have ha : (0:ℤ) ≤ i + (s.length:ℤ) := by omega
    have hb : i + (s.length:ℤ) < (s.length:ℤ) := by omega
    simp [List.find?, h.2, ha, hb]
  · have hneg : ¬ (i < 0) := by omega
    simp [List.find?, hneg, h.1, h.2]
  · by_cases hneg : i < 0
    · have hff : ¬ ((0:ℤ) ≤ i + (s.length : ℤ)) := by omega
      simp [List.find?, hneg, hff]
    · have hff : ¬ (i < (s.length : ℤ)) := by omega
      simp [List.find?, hneg, hff]

/-- C10 witness: indexing the two-element list [10, 20] at -1 returns the
last element 20 and leaves the world unchanged. -/
theorem C10_negative_indexing_witness :
    (-(([Value.intV 10, Value.intV 20] : List Value).length : ℤ) ≤ -1 ∧ (-1 : ℤ) < 0) ∧
    evalExpr 3 (.index (.var "a") (.num ((-1 : ℤ) : ℚ))) 0 (idxStateL [.intV 10, .intV 20])
      = (.ok (.intV 20), idxStateL [.intV 10, .intV 20]) := by
  refine ⟨by decide, ?_⟩
  have h := (C10_negative_indexing [.intV 10, .intV 20] "ab" (-1)).1.1 (by constructor <;> decide)
  exact h
